import Mathlib

/-!
Verification of the NovelScrapper sequential chapter acquisition engine.

This file gives a shallow embedding of the pipeline implemented in
`src/novel_manager.py` (acquisition loop, per-chapter download, archive
merge), `src/chapter_parser.py` (content and title extraction) and
`main.py` (exit status), and proves the behavioural properties of the
design document against it.  External collaborators (the browser session,
the BeautifulSoup DOM queries, the filesystem) enter as explicit
parameters: per-chapter navigation results, per-selector element lists,
and directory listings.
-/

namespace NovelScrapper

/-! ### Start-URL parsing

`NovelManager.download_chapters` parses the start URL with
`re.match(r'(.*)/v(\d+)/c(\d+)', current_url)` and keeps `group(1)` as the
base URL and `int(group(2))` as the volume (`group(3)` is not used).  The
regular expression is anchored at the start only, `(.*)` is greedy and
does not match a newline, and `\d+` is greedy, so the match picks the
longest possible base, then the maximal digit runs, and allows arbitrary
trailing characters after the chapter digits. -/

/-- Numeric value of a list of decimal digit characters, as Python `int`
reads a digit string (leading zeros are allowed and ignored). -/
def digitsToNat (ds : List Char) : Nat :=
  ds.foldl (fun a c => 10 * a + (c.toNat - 48)) 0

/-- Match the tail `/v<digits>/c<digits>` of the start-URL pattern at the
head of `cs`, returning the numeric volume and chapter groups.  Trailing
characters after the chapter digits are permitted, and each digit group is
the maximal digit run (the regex `\d+` is greedy and a digit cannot begin
the following `/c` literal). -/
def matchTail : List Char → Option (Nat × Nat)
  | '/' :: 'v' :: rest =>
    let ds := rest.takeWhile Char.isDigit
    if ds.isEmpty then none
    else
      match rest.drop ds.length with
      | '/' :: 'c' :: rest2 =>
        let ds2 := rest2.takeWhile Char.isDigit
        if ds2.isEmpty then none else some (digitsToNat ds, digitsToNat ds2)
      | _ => none
  | _ => none

/-- Split the URL into the `(.*)` group and the `/v../c..` tail, preferring
the longest possible group (the regex `(.*)` is greedy) and never letting
the group contain a newline (`.` does not match a newline). -/
def parseFrom : List Char → Option (List Char × Nat × Nat)
  | [] => none
  | c :: rest =>
    match (if c = '\n' then none else parseFrom rest) with
    | some (p, v, ch) => some (c :: p, v, ch)
    | none =>
      match matchTail (c :: rest) with
      | some (v, ch) => some ([], v, ch)
      | none => none

/-- Python `re.match(r'(.*)/v(\d+)/c(\d+)', url)` from
`NovelManager.download_chapters`, reduced to the data the loop consumes:
`group(1)`, `int(group(2))` and `int(group(3))`. -/
def parse_start_url (url : String) : Option (String × Nat × Nat) :=
  match parseFrom url.data with
  | some (p, v, ch) => some (String.mk p, v, ch)
  | none => none

/-! ### Per-chapter download (`NovelManager.download_chapter`) -/

/-- Chapter request URL built on every iteration of the loop:
`f-string base_url, "/v", volume, "/c", chapter_num` with the volume and
chapter rendered as plain decimal integers. -/
def chapter_url (base : String) (volume k : Nat) : String :=
  base ++ "/v" ++ Nat.repr volume ++ "/c" ++ Nat.repr k

/-- Python `%03d` formatting: the decimal numeral left-padded with zeros to
a minimum width of 3 (wider numerals are kept unchanged). -/
def pad3 (n : Nat) : String :=
  let s := Nat.repr n
  if s.length < 3 then String.mk (List.replicate (3 - s.length) '0') ++ s else s

/-- Per-chapter artifact filename `chapter_` + `%03d` chapter number +
`.txt`, from `NovelManager.download_chapter`. -/
def chapter_filename (n : Nat) : String :=
  "chapter_" ++ pad3 n ++ ".txt"

/-- Python `metadata.get("title") or f-string "Chapter", chapter_num`: the
synthetic title replaces a missing (`None`) or empty extracted title, both
of which are falsy. -/
def title_or_default (title : Option String) (n : Nat) : String :=
  match title with
  | some t => if t.isEmpty then "Chapter " ++ Nat.repr n else t
  | none => "Chapter " ++ Nat.repr n

/-- `NovelManager._format_chapter`: an 80-`=` bar, the chapter header line,
another bar, the source line, a blank line, the body, a trailing blank
line. -/
def format_chapter (title text : String) (n : Nat) (url : String) : String :=
  let bar := String.mk (List.replicate 80 '=')
  bar ++ "\nChapter " ++ Nat.repr n ++ ": " ++ title ++ "\n" ++ bar ++
    "\nSource: " ++ url ++ "\n\n" ++ text ++ "\n\n"

/-- Observable outcome of `NovelManager.download_chapter` on one chapter:
the returned boolean, whether the diagnostic screenshot was captured, and
the artifact (filename, content) written, if any. -/
structure AttemptResult where
  success : Bool
  screenshot : Bool
  saved : Option (String × String)
deriving DecidableEq

/-- `NovelManager.download_chapter` with its collaborators made explicit:
`navOk` is the result of `scraper.navigate_to_chapter`, `text` the result
of `parser.extract_chapter_text()` on the fetched page, `title` the result
of `parser.extract_chapter_title()`.  A body that is empty or shorter than
100 characters is rejected with a screenshot; otherwise the formatted
chapter is written under the zero-padded filename. -/
def download_chapter (navOk : Bool) (text : String) (title : Option String)
    (n : Nat) (url : String) : AttemptResult :=
  if navOk = false then ⟨false, false, none⟩
  else if text.data.isEmpty || decide (text.length < 100) then ⟨false, true, none⟩
  else ⟨true, false,
    some (chapter_filename n, format_chapter (title_or_default title n) text n url)⟩

/-! ### The acquisition loop (`NovelManager.download_chapters`) -/

/-- Python `if end_chapter and chapter_num > end_chapter: break`: an
`end_chapter` of `None` (and also the falsy `0`) never stops the loop. -/
def endStop (endCh : Option Nat) (k : Nat) : Bool :=
  match endCh with
  | none => false
  | some e => if e = 0 then false else decide (e < k)

/-- State left behind by the `while` loop of
`NovelManager.download_chapters`: the chapters attempted (with the URL
each attempt used, in order), the chapters persisted, and the final values
of `chapter_num` and `consecutive_failures`. -/
structure LoopResult where
  attempted : List (Nat × String)
  persisted : List Nat
  finalChapter : Nat
  finalFailures : Nat
deriving DecidableEq

/-- Body of the `while chapter_num <= max_chapters` loop.  `fuel` counts
the chapter numbers the bound still allows: the loop entered at
`chapter_num = k` runs while `k ≤ max_chapters`, i.e. with fuel
`max_chapters + 1 - k`, and each iteration consumes one unit as
`chapter_num` is incremented, so `fuel = 0` is exactly the exit condition
`chapter_num > max_chapters`.  `out k` abstracts the boolean returned by
`download_chapter` for chapter `k`.  `max_consecutive_failures` is fixed
at 3, and on the third consecutive failure the loop breaks before
incrementing `chapter_num`. -/
def downloadLoopAux (base : String) (volume : Nat) (out : Nat → Bool)
    (endCh : Option Nat) : Nat → Nat → Nat → LoopResult
  | 0, k, fails => ⟨[], [], k, fails⟩
  | fuel + 1, k, fails =>
    if endStop endCh k then ⟨[], [], k, fails⟩
    else
      let url := chapter_url base volume k
      if out k then
        let r := downloadLoopAux base volume out endCh fuel (k + 1) 0
        ⟨(k, url) :: r.attempted, k :: r.persisted, r.finalChapter, r.finalFailures⟩
      else if fails + 1 ≥ 3 then ⟨[(k, url)], [], k, fails + 1⟩
      else
        let r := downloadLoopAux base volume out endCh fuel (k + 1) (fails + 1)
        ⟨(k, url) :: r.attempted, r.persisted, r.finalChapter, r.finalFailures⟩

/-- `NovelManager.download_chapters` after the start URL has been parsed
into `base` and `volume`: run the loop from `start_chapter` with
`consecutive_failures = 0`. -/
def download_chapters (base : String) (volume : Nat) (out : Nat → Bool)
    (endCh : Option Nat) (startCh maxCh : Nat) : LoopResult :=
  downloadLoopAux base volume out endCh (maxCh + 1 - startCh) startCh 0

/-- Result of one call of `NovelManager.download_chapters`: either the
early `return` taken when the start URL does not match the pattern, or a
completed loop run together with the parsed base and volume. -/
inductive DownloadResult where
  | malformed : DownloadResult
  | ran : String → Nat → LoopResult → DownloadResult
deriving DecidableEq

/-- `NovelManager.download_chapters` from the start URL.  The
malformed-URL branch logs `"Could not parse URL pattern"` and `return`s
normally — it raises nothing, so it is `Except.ok` here, never
`Except.error`. -/
def download_chapters_from_url (url : String) (out : Nat → Bool)
    (endCh : Option Nat) (startCh maxCh : Nat) : Except String DownloadResult :=
  match parse_start_url url with
  | none => Except.ok DownloadResult.malformed
  | some (b, v, _) =>
    Except.ok (DownloadResult.ran b v (download_chapters b v out endCh startCh maxCh))

/-- Exit status of `main` (main.py): `sys.exit(1)` runs only from the
`except` handlers, and a run in which nothing is raised falls off the end
of `main` and the process exits with status 0. -/
def main_exit_status (url : String) (out : Nat → Bool)
    (endCh : Option Nat) (startCh maxCh : Nat) : Nat :=
  match download_chapters_from_url url out endCh startCh maxCh with
  | Except.error _ => 1
  | Except.ok _ => 0

/-- Count printed by the final log line of
`NovelManager.download_chapters`:
`chapter_num - start_chapter - consecutive_failures`, Python integer
subtraction (the value can be negative). -/
def logged_count (startCh : Nat) (r : LoopResult) : Int :=
  (r.finalChapter : Int) - (startCh : Int) - (r.finalFailures : Int)

/-- Per-chapter success exactly as the loop observes it: the boolean
returned by `download_chapter` for chapter `n`, fetched at the URL the
loop builds for `n`.  `nav`, `texts` and `titles` abstract what the
browser session and parser yield for each chapter page. -/
def chapter_outcome (nav : Nat → Bool) (texts : Nat → String)
    (titles : Nat → Option String) (base : String) (volume n : Nat) : Bool :=
  (download_chapter (nav n) (texts n) (titles n) n (chapter_url base volume n)).success

/-! ### Content extraction (`ChapterParser.extract_chapter_text`) -/

/-- Abstraction of one matched bs4 element as
`ChapterParser.extract_chapter_text` consumes it: the stripped texts of
its `p`/`div` descendants (`elem.find_all` with `p` and `div`), and its
own stripped text used when that descendant list is empty. -/
structure PElem where
  paragraphs : List String
  ownText : String
deriving DecidableEq

/-- Text fragments one matched element contributes: every paragraph text
that is truthy and longer than 20 characters, or, when the element has no
`p`/`div` descendants, its own text under the same filter. -/
def elem_parts (e : PElem) : List String :=
  match e.paragraphs with
  | [] => if !e.ownText.data.isEmpty && decide (20 < e.ownText.length) then [e.ownText] else []
  | ps => ps.filter (fun t => !t.data.isEmpty && decide (20 < t.length))

/-- Filtered fragments one selector yields: the concatenation, across all
elements the selector matched, of each element's contribution (the
`text_parts` list accumulated in the source). -/
def selector_parts (elems : String → List PElem) (s : String) : List String :=
  ((elems s).map elem_parts).flatten

/-- `ChapterParser._extract_largest_text_block` over the texts of the
`div`/`article`/`section` candidates: keep the longest text, the earlier
one on ties, starting from the empty string. -/
def extract_largest_text_block (cands : List String) : String :=
  cands.foldl (fun best t => if best.length < t.length then t else best) ""

/-- Trace of `ChapterParser.extract_chapter_text`: the returned text, the
selectors evaluated in order, and whether the largest-text-block fallback
produced the result. -/
structure ExtractResult where
  text : String
  evaluated : List String
  usedFallback : Bool
deriving DecidableEq

/-- `ChapterParser.extract_chapter_text`: walk the configured
content-selector list in priority order; `elems` abstracts the soup query
(`find_all` / `select`) for one selector.  The first selector whose
filtered fragment list is non-empty supplies the result (fragments joined
by a blank line) and ends the walk; if no selector yields fragments, the
largest-text-block fallback runs. -/
def extract_chapter_text (elems : String → List PElem) (cands : List String) :
    List String → ExtractResult
  | [] => ⟨extract_largest_text_block cands, [], true⟩
  | s :: rest =>
    let parts := selector_parts elems s
    if parts.isEmpty then
      let r := extract_chapter_text elems cands rest
      ⟨r.text, s :: r.evaluated, r.usedFallback⟩
    else
      ⟨String.intercalate "\n\n" parts, [s], false⟩

/-! ### Title extraction (`ChapterParser.extract_chapter_title`) -/

/-- Abstraction of one bs4 title query result: the Python truthiness of
the matched tag (a `Tag` defines `len` as its number of child nodes, so a
childless tag is falsy) and its stripped text. -/
structure TitleElem where
  truthy : Bool
  text : String
deriving DecidableEq

/-- Truthiness of `find` / `select_one` output: `None` is falsy, a tag is
as truthy as its child count. -/
def matched_truthy (o : Option TitleElem) : Bool :=
  match o with
  | some e => e.truthy
  | none => false

/-- `ChapterParser.extract_chapter_title`: `finder` abstracts the soup
query for one selector.  The first truthy match ends the scan with that
element's stripped text — which may be the empty string — and `None` is
returned only when every selector's match is missing or falsy. -/
def extract_chapter_title (finder : String → Option TitleElem) :
    List String → Option String
  | [] => none
  | s :: rest =>
    match finder s with
    | some e => if e.truthy then some e.text else extract_chapter_title finder rest
    | none => extract_chapter_title finder rest

/-! ### Archive merge (`NovelManager.merge_chapters`) -/

/-- Python `str.title()` restricted to what the merge header needs: the
first character of each maximal letter run uppercased, the others
lowercased (ASCII view). -/
def pyTitlecaseAux : Bool → List Char → List Char
  | _, [] => []
  | prevAlpha, c :: cs =>
    if c.isAlpha then
      (if prevAlpha then c.toLower else c.toUpper) :: pyTitlecaseAux true cs
    else
      c :: pyTitlecaseAux false cs

/-- Python `str.title()` on a whole string. -/
def pyTitlecase (s : String) : String :=
  String.mk (pyTitlecaseAux false s.data)

/-- Observable outcome of `NovelManager.merge_chapters`: the returned path
(the empty string on the `NoChaptersFound` early return) and the archive
content written, `none` when nothing was written at all. -/
structure MergeResult where
  path : String
  written : Option String
deriving DecidableEq

/-- Ascending insertion by filename, modelling Python `sorted()` on the
glob listing (filenames within one directory are distinct). -/
def insertByName (x : String × String) : List (String × String) → List (String × String)
  | [] => [x]
  | y :: ys => if x.1 < y.1 then x :: y :: ys else y :: insertByName x ys

/-- Sort the (filename, contents) listing by filename. -/
def sortByName : List (String × String) → List (String × String)
  | [] => []
  | x :: xs => insertByName x (sortByName xs)

/-- `NovelManager.merge_chapters` over the (filename, contents) pairs the
`chapter_*.txt` glob returned.  An empty listing takes the early return:
path `""`, nothing written.  Otherwise `full.txt` receives the title
header followed by every chapter file's contents, each with a trailing
blank line. -/
def merge_chapters (novelName : String) (files : List (String × String)) : MergeResult :=
  let chapterFiles := sortByName files
  if chapterFiles.isEmpty then ⟨"", none⟩
  else
    let bar := String.mk (List.replicate 80 '=')
    let header := bar ++ "\n" ++
      pyTitlecase (String.map (fun c => if c = '-' then ' ' else c) novelName) ++
      "\n" ++ bar ++ "\n\n"
    let body := String.join (chapterFiles.map (fun f => f.2 ++ "\n\n"))
    ⟨novelName ++ "/full.txt", some (header ++ body)⟩

/-! Theorems. -/

/-! Helper lemmas: one-step unfolding equations for the loop body, used by
the claim theorems below. -/

/-- Successful iteration: the chapter is recorded and persisted and the
loop continues at the next chapter with `consecutive_failures = 0`. -/
theorem aux_succ_success (base : String) (volume : Nat) (out : Nat → Bool)
    (endCh : Option Nat) (fuel k fails : Nat) (h : out k = true)
    (he : endStop endCh k = false) :
    downloadLoopAux base volume out endCh (fuel + 1) k fails =
      ⟨(k, chapter_url base volume k) ::
          (downloadLoopAux base volume out endCh fuel (k + 1) 0).attempted,
        k :: (downloadLoopAux base volume out endCh fuel (k + 1) 0).persisted,
        (downloadLoopAux base volume out endCh fuel (k + 1) 0).finalChapter,
        (downloadLoopAux base volume out endCh fuel (k + 1) 0).finalFailures⟩ := by
  simp [downloadLoopAux, h, he]

/-- Failing iteration below the threshold: the chapter is recorded but not
persisted and the loop continues with the failure counter incremented. -/
theorem aux_succ_fail_cont (base : String) (volume : Nat) (out : Nat → Bool)
    (endCh : Option Nat) (fuel k fails : Nat) (h : out k = false)
    (hf : fails + 1 < 3) (he : endStop endCh k = false) :
    downloadLoopAux base volume out endCh (fuel + 1) k fails =
      ⟨(k, chapter_url base volume k) ::
          (downloadLoopAux base volume out endCh fuel (k + 1) (fails + 1)).attempted,
        (downloadLoopAux base volume out endCh fuel (k + 1) (fails + 1)).persisted,
        (downloadLoopAux base volume out endCh fuel (k + 1) (fails + 1)).finalChapter,
        (downloadLoopAux base volume out endCh fuel (k + 1) (fails + 1)).finalFailures⟩ := by
  simp [downloadLoopAux, h, he, Nat.not_le.mpr hf]

/-- Third consecutive failure: the loop records the chapter and breaks
before incrementing `chapter_num`. -/
theorem aux_succ_fail_stop (base : String) (volume : Nat) (out : Nat → Bool)
    (endCh : Option Nat) (fuel k fails : Nat) (h : out k = false)
    (hf : 3 ≤ fails + 1) (he : endStop endCh k = false) :
    downloadLoopAux base volume out endCh (fuel + 1) k fails =
      ⟨[(k, chapter_url base volume k)], [], k, fails + 1⟩ := by
  simp [downloadLoopAux, h, he, hf]

/-- C1: in the acquisition loop the consecutive-failure counter resets to
0 on every successful chapter and increments by 1 on every failed chapter;
after exactly 3 consecutive chapter failures the loop stops without
attempting the next chapter number (first conjunct: exactly chapters
`k, k+1, k+2` are attempted), and a success occurring after 2 failures
resets the counter so that later chapters are still attempted (second
conjunct: after the outcome pattern fail,fail,success,fail,fail at `k`,
chapter `k+5` is attempted). -/
theorem consecutive_failures_spec (base : String) (volume : Nat)
    (out : Nat → Bool) (endCh : Option Nat) (maxCh k c fuel : Nat) :
    (out k = false → out (k + 1) = false → out (k + 2) = false → k + 2 ≤ maxCh →
      (download_chapters base volume out none k maxCh).attempted.map Prod.fst
        = [k, k + 1, k + 2]) ∧
    (out k = false → out (k + 1) = false → out (k + 2) = true →
      out (k + 3) = false → out (k + 4) = false → k + 5 ≤ maxCh →
      (k + 5) ∈ (download_chapters base volume out none k maxCh).attempted.map Prod.fst) ∧
    (out k = true → endStop endCh k = false →
      downloadLoopAux base volume out endCh (fuel + 1) k c =
        ⟨(k, chapter_url base volume k) ::
            (downloadLoopAux base volume out endCh fuel (k + 1) 0).attempted,
          k :: (downloadLoopAux base volume out endCh fuel (k + 1) 0).persisted,
          (downloadLoopAux base volume out endCh fuel (k + 1) 0).finalChapter,
          (downloadLoopAux base volume out endCh fuel (k + 1) 0).finalFailures⟩) ∧
    (out k = false → c + 1 < 3 → endStop endCh k = false →
      downloadLoopAux base volume out endCh (fuel + 1) k c =
        ⟨(k, chapter_url base volume k) ::
            (downloadLoopAux base volume out endCh fuel (k + 1) (c + 1)).attempted,
          (downloadLoopAux base volume out endCh fuel (k + 1) (c + 1)).persisted,
          (downloadLoopAux base volume out endCh fuel (k + 1) (c + 1)).finalChapter,
          (downloadLoopAux base volume out endCh fuel (k + 1) (c + 1)).finalFailures⟩) := by
  refine ⟨?_, ?_, ?_, ?_⟩
  · intro h0 h1 h2 hle
    obtain ⟨f, hf⟩ : ∃ f, maxCh + 1 - k = f + 1 + 1 + 1 := ⟨maxCh - 2 - k, by omega⟩
    unfold download_chapters
    rw [hf, aux_succ_fail_cont base volume out none _ k 0 h0 (by omega) rfl,
      aux_succ_fail_cont base volume out none _ (k + 1) 1 h1 (by omega) rfl,
      aux_succ_fail_stop base volume out none _ (k + 2) 2 h2 (by omega) rfl]
    simp
  · intro h0 h1 h2 h3 h4 hle
    obtain ⟨f, hf⟩ : ∃ f, maxCh + 1 - k = f + 1 + 1 + 1 + 1 + 1 + 1 := ⟨maxCh - 5 - k, by omega⟩
    unfold download_chapters
    rw [hf, aux_succ_fail_cont base volume out none _ k 0 h0 (by omega) rfl,
      aux_succ_fail_cont base volume out none _ (k + 1) 1 h1 (by omega) rfl]
    have h2e : (k + 1) + 1 = k + 2 := by omega
    rw [h2e, aux_succ_success base volume out none _ (k + 2) 2 h2 rfl]
    have h3e : (k + 2) + 1 = k + 3 := by omega
    rw [h3e, aux_succ_fail_cont base volume out none _ (k + 3) 0 h3 (by omega) rfl]
    have h4e : (k + 3) + 1 = k + 4 := by omega
    rw [h4e, aux_succ_fail_cont base volume out none _ (k + 4) 1 h4 (by omega) rfl]
    have h5e : (k + 4) + 1 = k + 5 := by omega
    rw [h5e]
    cases h5 : out (k + 5)
    · rw [aux_succ_fail_stop base volume out none _ (k + 5) 2 h5 (by omega) rfl]
      simp
    · rw [aux_succ_success base volume out none _ (k + 5) 2 h5 rfl]
      simp
  · intro h he
    exact aux_succ_success base volume out endCh fuel k c h he
  · intro h hc he
    exact aux_succ_fail_cont base volume out endCh fuel k c h hc he

/-- C2: a chapter attempt whose extracted body is shorter than 100
characters (length 99 and the empty body included) is recorded as a
chapter failure with a diagnostic screenshot captured and no artifact
persisted, and in the loop it increments `consecutive_failures`; a body of
length 100 or more is persisted and is not a failure, and the loop resets
the counter to 0. -/
theorem insufficient_content_spec (nav : Nat → Bool) (texts : Nat → String)
    (titles : Nat → Option String) (base : String) (volume : Nat)
    (endCh : Option Nat) (fuel k c : Nat) :
    ((texts k).length < 100 → nav k = true →
      download_chapter (nav k) (texts k) (titles k) k (chapter_url base volume k) =
        ⟨false, true, none⟩) ∧
    (100 ≤ (texts k).length → nav k = true →
      download_chapter (nav k) (texts k) (titles k) k (chapter_url base volume k) =
        ⟨true, false, some (chapter_filename k,
          format_chapter (title_or_default (titles k) k) (texts k) k
            (chapter_url base volume k))⟩) ∧
    ((texts k).length < 100 → nav k = true → c + 1 < 3 → endStop endCh k = false →
      downloadLoopAux base volume (chapter_outcome nav texts titles base volume)
          endCh (fuel + 1) k c =
        ⟨(k, chapter_url base volume k) ::
            (downloadLoopAux base volume (chapter_outcome nav texts titles base volume)
              endCh fuel (k + 1) (c + 1)).attempted,
          (downloadLoopAux base volume (chapter_outcome nav texts titles base volume)
            endCh fuel (k + 1) (c + 1)).persisted,
          (downloadLoopAux base volume (chapter_outcome nav texts titles base volume)
            endCh fuel (k + 1) (c + 1)).finalChapter,
          (downloadLoopAux base volume (chapter_outcome nav texts titles base volume)
            endCh fuel (k + 1) (c + 1)).finalFailures⟩) ∧
    (100 ≤ (texts k).length → nav k = true → endStop endCh k = false →
      downloadLoopAux base volume (chapter_outcome nav texts titles base volume)
          endCh (fuel + 1) k c =
        ⟨(k, chapter_url base volume k) ::
            (downloadLoopAux base volume (chapter_outcome nav texts titles base volume)
              endCh fuel (k + 1) 0).attempted,
          k :: (downloadLoopAux base volume (chapter_outcome nav texts titles base volume)
            endCh fuel (k + 1) 0).persisted,
          (downloadLoopAux base volume (chapter_outcome nav texts titles base volume)
            endCh fuel (k + 1) 0).finalChapter,
          (downloadLoopAux base volume (chapter_outcome nav texts titles base volume)
            endCh fuel (k + 1) 0).finalFailures⟩) := by
  have hshort : (texts k).length < 100 → nav k = true →
      download_chapter (nav k) (texts k) (titles k) k (chapter_url base volume k) =
        ⟨false, true, none⟩ := by
    intro hlen hnav
    unfold download_chapter
    rw [hnav]
    simp [hlen]
  have hlong : 100 ≤ (texts k).length → nav k = true →
      download_chapter (nav k) (texts k) (titles k) k (chapter_url base volume k) =
        ⟨true, false, some (chapter_filename k,
          format_chapter (title_or_default (titles k) k) (texts k) k
            (chapter_url base volume k))⟩ := by
    intro hlen hnav
    have hne : (texts k).data.isEmpty = false := by
      rcases hd : (texts k).data with _ | ⟨a, l⟩
      · have hL : (texts k).length = (texts k).data.length := rfl
        rw [hd] at hL
        simp at hL
        omega
      · rfl
    unfold download_chapter
    rw [hnav]
    simp [hne, Nat.not_lt.mpr hlen]
  refine ⟨hshort, hlong, ?_, ?_⟩
  · intro hlen hnav hc he
    have hout : chapter_outcome nav texts titles base volume k = false := by
      unfold chapter_outcome
      rw [hshort hlen hnav]
    exact aux_succ_fail_cont base volume _ endCh fuel k c hout hc he
  · intro hlen hnav he
    have hout : chapter_outcome nav texts titles base volume k = true := by
      unfold chapter_outcome
      rw [hlong hlen hnav]
    exact aux_succ_success base volume _ endCh fuel k c hout he

/-- Helper: selectors whose filtered fragment list is empty are walked
past, each leaving only its trace in the evaluated list. -/
theorem extract_skip_empty (elems : String → List PElem) (cands : List String) :
    ∀ pre : List String, (∀ s2 ∈ pre, selector_parts elems s2 = []) →
      ∀ rest : List String,
        extract_chapter_text elems cands (pre ++ rest) =
          ⟨(extract_chapter_text elems cands rest).text,
            pre ++ (extract_chapter_text elems cands rest).evaluated,
            (extract_chapter_text elems cands rest).usedFallback⟩ := by
  intro pre
  induction pre with
  | nil => intro _ rest; simp
  | cons s pre ih =>
    intro h rest
    have hs : selector_parts elems s = [] := h s (by simp)
    have hpre : ∀ s2 ∈ pre, selector_parts elems s2 = [] := by
      intro s2 hs2
      exact h s2 (by simp [hs2])
    simp only [List.cons_append, extract_chapter_text, hs, List.isEmpty_nil, if_true]
    simp only [List.append_eq]
    rw [ih hpre rest]

/-- Helper: the fallback fires exactly when every selector's filtered
fragment list is empty. -/
theorem fallback_iff_all_empty (elems : String → List PElem) (cands : List String) :
    ∀ sels : List String,
      ((extract_chapter_text elems cands sels).usedFallback = true ↔
        ∀ s2 ∈ sels, selector_parts elems s2 = []) := by
  intro sels
  induction sels with
  | nil => simp [extract_chapter_text]
  | cons s rest ih =>
    by_cases hs : selector_parts elems s = []
    · simp only [extract_chapter_text, hs, List.isEmpty_nil, if_true]
      constructor
      · intro h s2 hs2
        rcases List.mem_cons.mp hs2 with h1 | h2
        · rw [h1]; exact hs
        · exact (ih.mp h) s2 h2
      · intro h
        exact ih.mpr (fun s2 hs2 => h s2 (List.mem_cons_of_mem s hs2))
    · have : (selector_parts elems s).isEmpty = false := by
        rcases hd : selector_parts elems s with _ | ⟨a, l⟩
        · exact absurd hd hs
        · rfl
      simp only [extract_chapter_text, this, Bool.false_eq_true, if_false]
      constructor
      · intro h; exact absurd h (by simp)
      · intro h
        exact absurd (h s (by simp)) hs

/-- C3: if selector `i` is the first selector that yields non-empty
filtered text (fragments longer than 20 characters, joined by a blank
line), the extractor returns that text having evaluated only selectors
`1..i` — never the later selectors and never the fallback (first
conjunct); the largest-text-block fallback is invoked exactly when no
selector yields non-empty filtered text (second and third conjuncts). -/
theorem selector_short_circuit (elems : String → List PElem) (cands : List String)
    (pre post : List String) (s : String) :
    ((∀ s2 ∈ pre, selector_parts elems s2 = []) → selector_parts elems s ≠ [] →
      extract_chapter_text elems cands (pre ++ s :: post) =
        ⟨String.intercalate "\n\n" (selector_parts elems s), pre ++ [s], false⟩) ∧
    (∀ sels : List String,
      ((extract_chapter_text elems cands sels).usedFallback = true ↔
        ∀ s2 ∈ sels, selector_parts elems s2 = [])) ∧
    (∀ sels : List String, (∀ s2 ∈ sels, selector_parts elems s2 = []) →
      extract_chapter_text elems cands sels =
        ⟨extract_largest_text_block cands, sels, true⟩) := by
  refine ⟨?_, fallback_iff_all_empty elems cands, ?_⟩
  · intro hpre hs
    rw [extract_skip_empty elems cands pre hpre (s :: post)]
    have hne : (selector_parts elems s).isEmpty = false := by
      rcases hd : selector_parts elems s with _ | ⟨a, l⟩
      · exact absurd hd hs
      · rfl
    simp only [extract_chapter_text, hne, Bool.false_eq_true, if_false]
  · intro sels h
    have := extract_skip_empty elems cands sels h []
    rw [List.append_nil] at this
    rw [this]
    simp [extract_chapter_text]

/-- C7 (amended): title extraction tries the title-selector list in
priority order and returns the stripped text of the first selector whose
match exists and is truthy (a tag with at least one child node) — that
text may be empty; `None` is returned exactly when every selector's match
is missing or falsy; and the loop substitutes the synthetic
`Chapter N` title for a `None` title and for an empty title. -/
theorem title_first_truthy_match (finder : String → Option TitleElem)
    (pre post : List String) (s : String) (e : TitleElem) (n : Nat) :
    ((∀ s2 ∈ pre, matched_truthy (finder s2) = false) → finder s = some e →
      e.truthy = true →
      extract_chapter_title finder (pre ++ s :: post) = some e.text) ∧
    (∀ sels : List String, (∀ s2 ∈ sels, matched_truthy (finder s2) = false) →
      extract_chapter_title finder sels = none) ∧
    title_or_default none n = "Chapter " ++ Nat.repr n ∧
    title_or_default (some "") n = "Chapter " ++ Nat.repr n := by
  have hnone : ∀ sels : List String, (∀ s2 ∈ sels, matched_truthy (finder s2) = false) →
      extract_chapter_title finder sels = none := by
    intro sels
    induction sels with
    | nil => intro _; rfl
    | cons s2 rest ih =>
      intro h
      have h2 := h s2 (by simp)
      have hrest := ih (fun s3 hs3 => h s3 (List.mem_cons_of_mem s2 hs3))
      unfold extract_chapter_title
      rcases hf : finder s2 with _ | e2
      · exact hrest
      · rw [hf] at h2
        have h2t : e2.truthy = false := h2
        simp only []
        rw [if_neg (by simp [h2t])]
        exact hrest
  refine ⟨?_, hnone, rfl, rfl⟩
  · intro hpre hf he
    induction pre with
    | nil =>
      simp only [List.nil_append]
      unfold extract_chapter_title
      rw [hf]
      simp [he]
    | cons s2 pre2 ih =>
      have h2 := hpre s2 (by simp)
      have hpre2 : ∀ s3 ∈ pre2, matched_truthy (finder s3) = false := by
        intro s3 hs3
        exact hpre s3 (by simp [hs3])
      simp only [List.cons_append]
      unfold extract_chapter_title
      rcases hf2 : finder s2 with _ | e2
      · exact ih hpre2
      · rw [hf2] at h2
        have h2t : e2.truthy = false := h2
        simp only []
        rw [if_neg (by simp [h2t])]
        exact ih hpre2

/-- C7 counterexample: when the first selector's matched element is truthy
but has empty stripped text, the extractor returns the empty string — not
the non-empty title a later selector would give, and not `None` — so the
claim as stated fails. -/
theorem title_empty_text_cx :
    extract_chapter_title (fun _ => some ⟨true, ""⟩) ["h1.ls_cq"] = some "" ∧
    (some "" : Option String) ≠ none ∧
    extract_chapter_title
      (fun s2 => if s2 = "h1.ls_cq" then some ⟨true, ""⟩ else some ⟨true, "Real Title"⟩)
      ["h1.ls_cq", ".reader-header h1"] = some "" ∧
    ("" : String) ≠ "Real Title" := by
  refine ⟨rfl, by simp, rfl, by decide⟩

set_option maxRecDepth 4000 in
/-- Helper: adjacent zero-padded filenames compare in numeric order below
999, established by a bounded check on the character lists. -/
theorem chapter_filename_lt_succ : ∀ n : Nat, n < 999 →
    chapter_filename n < chapter_filename (n + 1) := by
  have hall : ((List.range 999).all fun n =>
      decide ((chapter_filename n).data < (chapter_filename (n + 1)).data)) = true := by
    decide
  intro n hn
  have h := List.all_eq_true.mp hall n (List.mem_range.mpr hn)
  rw [String.lt_iff_toList_lt]
  exact of_decide_eq_true h

/-- Helper: the filename order is strictly monotone on chapter numbers up
to 999. -/
theorem chapter_filename_lt_of_lt : ∀ n : Nat, n ≤ 999 → ∀ m : Nat, m < n →
    chapter_filename m < chapter_filename n := by
  intro n
  induction n with
  | zero => intro _ m hm; omega
  | succ n ih =>
    intro hn m hm
    rcases Nat.lt_succ_iff_lt_or_eq.mp hm with h | h
    · exact lt_trans (ih (by omega) m h) (chapter_filename_lt_succ n (by omega))
    · rw [h]
      exact chapter_filename_lt_succ n (by omega)

/-- C4 (amended): sorting the persisted `chapter_NNN.txt` filenames
lexicographically orders the chapters by ascending numeric chapter number
provided every chapter number is at most 999 — the padding is three
digits wide, so the property does not extend to the configured default
maximum of 1000 (see the counterexample). -/
theorem padded_filename_order (l : List Nat) (hl : ∀ x ∈ l, x ≤ 999) :
    (∀ m ≤ 999, ∀ n ≤ 999, (chapter_filename m < chapter_filename n ↔ m < n)) ∧
    ((l.map chapter_filename).Pairwise (· < ·) ↔ l.Pairwise (· < ·)) := by
  have hiff : ∀ m ≤ 999, ∀ n ≤ 999, (chapter_filename m < chapter_filename n ↔ m < n) := by
    intro m hm n hn
    constructor
    · intro h
      rcases Nat.lt_trichotomy m n with hlt | heq | hgt
      · exact hlt
      · rw [heq] at h
        exact absurd h (lt_irrefl _)
      · exact absurd h (lt_asymm (chapter_filename_lt_of_lt m hm n hgt))
    · intro h
      exact chapter_filename_lt_of_lt n hn m h
  refine ⟨hiff, ?_⟩
  rw [List.pairwise_map]
  constructor
  · intro h
    exact h.imp_of_mem (fun ha hb hab => (hiff _ (hl _ ha) _ (hl _ hb)).mp hab)
  · intro h
    exact h.imp_of_mem (fun ha hb hab => (hiff _ (hl _ ha) _ (hl _ hb)).mpr hab)

/-- C4 counterexample: chapter 1000 is reachable under the default bound
`max_chapters = 1000`, and its filename sorts lexicographically before
chapter 999's although 999 < 1000, so the claim fails as stated. -/
theorem padded_filename_order_cx :
    chapter_filename 1000 < chapter_filename 999 ∧ (999 : Nat) < 1000 := by
  constructor
  · rw [String.lt_iff_toList_lt]
    decide
  · omega

/-- Witness for C4 (amended) at the chapter list `[3, 7, 12]`. -/
theorem padded_filename_order_witness :
    (∀ x ∈ ([3, 7, 12] : List Nat), x ≤ 999) ∧
    ((∀ m ≤ 999, ∀ n ≤ 999, (chapter_filename m < chapter_filename n ↔ m < n)) ∧
      ((([3, 7, 12] : List Nat).map chapter_filename).Pairwise (· < ·) ↔
        ([3, 7, 12] : List Nat).Pairwise (· < ·))) :=
  ⟨by decide, padded_filename_order [3, 7, 12] (by decide)⟩

/-- C9: merging a chapters directory that holds zero chapter artifacts
returns the `NoChaptersFound` outcome — the empty path, an empty result
rather than an exception — and performs no filesystem write. -/
theorem merge_empty_no_write (novelName : String) :
    merge_chapters novelName [] = ⟨"", none⟩ := rfl

/-- C6: evaluation at the failing input — chapters 1 and 3 succeed,
chapter 2 fails, `end_chapter = 3`, `start_chapter = 1` — where the loop's
summary line logs `chapter_num - start_chapter - consecutive_failures = 3`
downloaded chapters although only the 2 chapters `[1, 3]` were persisted,
contradicting the claim that the reported count equals the persisted
count whenever failures occur non-consecutively. -/
theorem reported_count_mismatch :
    logged_count 1 (download_chapters "b" 1 (fun n => !(n == 2)) (some 3) 1 10) = 3 ∧
    (download_chapters "b" 1 (fun n => !(n == 2)) (some 3) 1 10).persisted = [1, 3] ∧
    (download_chapters "b" 1 (fun n => !(n == 2)) (some 3) 1 10).persisted.length = 2 := by
  refine ⟨by decide, by decide, by decide⟩

/-- C5 (amended): for every start URL that does not match the
`base/v<volume>/c<chapter>` pattern, `download_chapters` returns the
malformed outcome immediately — no chapter is attempted, no navigation
occurs, no recovery — but the branch only logs and returns, nothing is
raised, and the process terminates with exit status 0, not the non-zero
status the claim requires. -/
theorem malformed_url_no_exit (url : String) (out : Nat → Bool)
    (endCh : Option Nat) (startCh maxCh : Nat)
    (hp : parse_start_url url = none) :
    download_chapters_from_url url out endCh startCh maxCh =
      Except.ok DownloadResult.malformed ∧
    main_exit_status url out endCh startCh maxCh = 0 := by
  have h1 : download_chapters_from_url url out endCh startCh maxCh =
      Except.ok DownloadResult.malformed := by
    unfold download_chapters_from_url
    rw [hp]
  refine ⟨h1, ?_⟩
  unfold main_exit_status
  rw [h1]

/-- C5 counterexample: at a concrete start URL that does not match the
pattern, the process exit status is 0, refuting the claimed non-zero
exit status. -/
theorem malformed_url_no_exit_cx :
    parse_start_url "https://example.org/book/read-online" = none ∧
    main_exit_status "https://example.org/book/read-online" (fun _ => true) none 1 1000 = 0 := by
  refine ⟨by decide, by decide⟩

/-- Witness for C5 (amended) at a concrete malformed start URL. -/
theorem malformed_url_no_exit_witness :
    parse_start_url "https://ranobelib.me/ru/book/195738" = none ∧
    (download_chapters_from_url "https://ranobelib.me/ru/book/195738" (fun _ => true) none 1 1000 =
        Except.ok DownloadResult.malformed ∧
      main_exit_status "https://ranobelib.me/ru/book/195738" (fun _ => true) none 1 1000 = 0) :=
  ⟨by decide, malformed_url_no_exit "https://ranobelib.me/ru/book/195738" (fun _ => true)
    none 1 1000 (by decide)⟩

/-- Helper: a successful parse splits the URL into the base (`group(1)`),
which is a prefix of the URL, followed by a tail matching
`/v<digits>/c<digits>`. -/
theorem parseFrom_split : ∀ cs p : List Char, ∀ v ch : Nat,
    parseFrom cs = some (p, v, ch) →
    ∃ rest, cs = p ++ rest ∧ matchTail rest = some (v, ch) := by
  intro cs
  induction cs with
  | nil => intro p v ch h; exact absurd h (by simp [parseFrom])
  | cons c rest ih =>
    intro p v ch h
    unfold parseFrom at h
    rcases hrec : (if c = '\n' then none else parseFrom rest) with _ | pr
    · rw [hrec] at h
      rcases hmt : matchTail (c :: rest) with _ | pm
      · rw [hmt] at h
        exact absurd h (by simp)
      · obtain ⟨v1, ch1⟩ := pm
        rw [hmt] at h
        simp only [Option.some.injEq, Prod.mk.injEq] at h
        obtain ⟨hp, hv, hch⟩ := h
        refine ⟨c :: rest, ?_, ?_⟩
        · rw [← hp]
          rfl
        · rw [← hv, ← hch]
          exact hmt
    · obtain ⟨p1, v1, ch1⟩ := pr
      rw [hrec] at h
      simp only [Option.some.injEq, Prod.mk.injEq] at h
      obtain ⟨hp, hv, hch⟩ := h
      by_cases hc : c = '\n'
      · rw [if_pos hc] at hrec
        exact absurd hrec (by simp)
      · rw [if_neg hc] at hrec
        obtain ⟨r, hr, hmt⟩ := ih p1 v1 ch1 hrec
        refine ⟨r, ?_, ?_⟩
        · rw [← hp, hr]
          rfl
        · rw [← hv, ← hch]
          exact hmt

/-- Helper: every attempted chapter `k` was fetched at exactly
`base/v<volume>/c<k>`, with the base and volume fixed across all
iterations of the loop. -/
theorem attempted_urls_fixed (base : String) (volume : Nat) (out : Nat → Bool)
    (endCh : Option Nat) : ∀ fuel k c : Nat,
    ∀ p ∈ (downloadLoopAux base volume out endCh fuel k c).attempted,
      p.2 = chapter_url base volume p.1 := by
  intro fuel
  induction fuel with
  | zero => intro k c p hp; exact absurd hp (by simp [downloadLoopAux])
  | succ fuel ih =>
    intro k c p hp
    unfold downloadLoopAux at hp
    by_cases he : endStop endCh k = true
    · rw [if_pos he] at hp
      exact absurd hp (by simp)
    · rw [if_neg he] at hp
      by_cases ho : out k = true
      · rw [if_pos ho] at hp
        simp only [List.mem_cons] at hp
        rcases hp with h | h
        · rw [h]
        · exact ih (k + 1) 0 p h
      · rw [if_neg ho] at hp
        by_cases hf : c + 1 ≥ 3
        · rw [if_pos hf] at hp
          simp only [List.mem_singleton] at hp
          rw [hp]
        · rw [if_neg hf] at hp
          simp only [List.mem_cons] at hp
          rcases hp with h | h
          · rw [h]
          · exact ih (k + 1) (c + 1) p h

/-- C8: for every start URL matching `base/v<volume>/c<chapter>`, the base
kept by the loop is a prefix of the start URL (protocol, host and book
identifier preserved), and every request URL the loop builds is exactly
`base/v<volume>/c<k>` for the current chapter number `k`, with base and
volume unchanged across all iterations. -/
theorem url_sequencing (url base : String) (volume ch : Nat) (out : Nat → Bool)
    (endCh : Option Nat) (startCh maxCh : Nat)
    (hp : parse_start_url url = some (base, volume, ch)) :
    (∃ rest : List Char, url.data = base.data ++ rest ∧
      matchTail rest = some (volume, ch)) ∧
    download_chapters_from_url url out endCh startCh maxCh =
      Except.ok (DownloadResult.ran base volume
        (download_chapters base volume out endCh startCh maxCh)) ∧
    (∀ p ∈ (download_chapters base volume out endCh startCh maxCh).attempted,
      p.2 = base ++ "/v" ++ Nat.repr volume ++ "/c" ++ Nat.repr p.1) := by
  have hpf : parseFrom url.data = some (base.data, volume, ch) := by
    unfold parse_start_url at hp
    rcases hq : parseFrom url.data with _ | q
    · rw [hq] at hp
      exact absurd hp (by simp)
    · obtain ⟨p1, v1, ch1⟩ := q
      rw [hq] at hp
      simp only [Option.some.injEq, Prod.mk.injEq] at hp
      obtain ⟨h1, h2, h3⟩ := hp
      rw [← h2, ← h3, ← h1]
  refine ⟨?_, ?_, ?_⟩
  · exact parseFrom_split url.data base.data volume ch hpf
  · unfold download_chapters_from_url
    rw [hp]
  · intro p hpmem
    exact attempted_urls_fixed base volume out endCh _ startCh 0 p hpmem

/-- Witness for C8: the spec example — start URL ending `/v1/c5` generates
`/v1/c5`, `/v1/c6`, `/v1/c7` for chapters 5, 6, 7. -/
theorem url_sequencing_witness :
    parse_start_url "https://ranobe.org/r/195738--myst-might-mayhem/v1/c5" =
      some ("https://ranobe.org/r/195738--myst-might-mayhem", 1, 5) ∧
    (∃ rest : List Char,
      "https://ranobe.org/r/195738--myst-might-mayhem/v1/c5".data =
        "https://ranobe.org/r/195738--myst-might-mayhem".data ++ rest ∧
      matchTail rest = some (1, 5)) ∧
    (∀ p ∈ (download_chapters "https://ranobe.org/r/195738--myst-might-mayhem" 1
        (fun _ => true) (some 7) 5 1000).attempted,
      p.2 = "https://ranobe.org/r/195738--myst-might-mayhem" ++ "/v" ++ Nat.repr 1 ++
        "/c" ++ Nat.repr p.1) ∧
    (download_chapters "https://ranobe.org/r/195738--myst-might-mayhem" 1
        (fun _ => true) (some 7) 5 1000).attempted.map Prod.snd =
      ["https://ranobe.org/r/195738--myst-might-mayhem/v1/c5",
       "https://ranobe.org/r/195738--myst-might-mayhem/v1/c6",
       "https://ranobe.org/r/195738--myst-might-mayhem/v1/c7"] := by
  have h := url_sequencing "https://ranobe.org/r/195738--myst-might-mayhem/v1/c5"
    "https://ranobe.org/r/195738--myst-might-mayhem" 1 5 (fun _ => true) (some 7) 5 1000
    (by decide)
  exact ⟨by decide, h.1, h.2.2, by decide⟩

/-- Helper: the decimal digits of a positive number never start with the
digit zero (by induction on the numeral fuel). -/
theorem toDigitsCore_head_ne_zero : ∀ fuel n : Nat, ∀ ds : List Char,
    n ≠ 0 → n ≤ fuel →
    ∃ c cs, Nat.toDigitsCore 10 fuel n ds = c :: cs ∧ c ≠ '0' := by
  intro fuel
  induction fuel with
  | zero => intro n ds hn hle; omega
  | succ fuel ih =>
    intro n ds hn hle
    unfold Nat.toDigitsCore
    by_cases hq : n / 10 = 0
    · rw [if_pos hq]
      have hlt : n < 10 := by
        rcases Nat.lt_or_ge n 10 with h | h
        · exact h
        · exact absurd hq (by
            have : n / 10 ≥ 1 := Nat.le_div_iff_mul_le (by omega) |>.mpr (by omega)
            omega)
      have hmod : n % 10 = n := Nat.mod_eq_of_lt hlt
      refine ⟨Nat.digitChar (n % 10), ds, rfl, ?_⟩
      rw [hmod]
      interval_cases n <;> first | omega | decide
    · rw [if_neg hq]
      have hlt : n / 10 < n := Nat.div_lt_self (by omega) (by omega)
      exact ih (n / 10) (Nat.digitChar (n % 10) :: ds) hq (by omega)

/-- Helper: the decimal rendering of a non-zero natural number has no
leading zero character. -/
theorem repr_no_leading_zero (n : Nat) (hn : n ≠ 0) :
    ∀ cs : List Char, (Nat.repr n).data ≠ '0' :: cs := by
  obtain ⟨c, cs0, heq, hc⟩ :=
    toDigitsCore_head_ne_zero (n + 1) n [] hn (Nat.le_succ n)
  intro cs hcontra
  have hdata : (Nat.repr n).data = Nat.toDigitsCore 10 (n + 1) n [] := rfl
  rw [hdata, heq] at hcontra
  exact hc (List.cons.injEq .. |>.mp hcontra).1

/-- C10: the loop parses the start URL's volume digits to an integer and
re-substitutes it without padding into every generated request URL, so
the rendering of a non-zero volume never carries a leading zero and the
original zero-padded volume formatting of the start URL is not
preserved. -/
theorem volume_rendered_unpadded (url base : String) (volume ch : Nat)
    (out : Nat → Bool) (endCh : Option Nat) (startCh maxCh : Nat)
    (hp : parse_start_url url = some (base, volume, ch)) :
    download_chapters_from_url url out endCh startCh maxCh =
      Except.ok (DownloadResult.ran base volume
        (download_chapters base volume out endCh startCh maxCh)) ∧
    (∀ p ∈ (download_chapters base volume out endCh startCh maxCh).attempted,
      p.2 = base ++ "/v" ++ Nat.repr volume ++ "/c" ++ Nat.repr p.1) ∧
    (volume ≠ 0 → ∀ cs : List Char, (Nat.repr volume).data ≠ '0' :: cs) := by
  refine ⟨?_, ?_, ?_⟩
  · unfold download_chapters_from_url
    rw [hp]
  · intro p hpmem
    exact attempted_urls_fixed base volume out endCh _ startCh 0 p hpmem
  · intro hv
    exact repr_no_leading_zero volume hv

/-- Witness for C10: the start URL `/v01/c01` yields volume 1 and the
generated URLs read `/v1/c1`, `/v1/c2` — the zero padding is gone. -/
theorem volume_rendered_unpadded_witness :
    parse_start_url "https://ranobe.org/r/195738--myst-might-mayhem/v01/c01" =
      some ("https://ranobe.org/r/195738--myst-might-mayhem", 1, 1) ∧
    (∀ p ∈ (download_chapters "https://ranobe.org/r/195738--myst-might-mayhem" 1
        (fun _ => true) (some 2) 1 1000).attempted,
      p.2 = "https://ranobe.org/r/195738--myst-might-mayhem" ++ "/v" ++ Nat.repr 1 ++
        "/c" ++ Nat.repr p.1) ∧
    (∀ cs : List Char, (Nat.repr 1).data ≠ '0' :: cs) ∧
    (download_chapters "https://ranobe.org/r/195738--myst-might-mayhem" 1
        (fun _ => true) (some 2) 1 1000).attempted.map Prod.snd =
      ["https://ranobe.org/r/195738--myst-might-mayhem/v1/c1",
       "https://ranobe.org/r/195738--myst-might-mayhem/v1/c2"] := by
  have h := volume_rendered_unpadded
    "https://ranobe.org/r/195738--myst-might-mayhem/v01/c01"
    "https://ranobe.org/r/195738--myst-might-mayhem" 1 1 (fun _ => true) (some 2) 1 1000
    (by decide)
  exact ⟨by decide, h.2.1, h.2.2 (by omega), by decide⟩

/-- Witness for C1: all-failure outcomes attempt exactly chapters 1, 2, 3;
the pattern fail,fail,success,fail,fail still attempts chapter 6; and the
one-step equations evaluated at chapter 1. -/
theorem consecutive_failures_spec_witness :
    ((download_chapters "base" 1 (fun _ => false) none 1 10).attempted.map Prod.fst
      = [1, 2, 3]) ∧
    (6 ∈ (download_chapters "base" 1 (fun n => n == 3) none 1 10).attempted.map Prod.fst) ∧
    downloadLoopAux "base" 1 (fun _ => true) none (0 + 1) 1 0 =
      ⟨[(1, chapter_url "base" 1 1)], [1], 2, 0⟩ ∧
    downloadLoopAux "base" 1 (fun _ => false) none (0 + 1) 1 0 =
      ⟨[(1, chapter_url "base" 1 1)], [], 2, 1⟩ := by
  refine ⟨?_, ?_, ?_, ?_⟩
  · exact (consecutive_failures_spec "base" 1 (fun _ => false) none 10 1 0 0).1
      rfl rfl rfl (by omega)
  · exact (consecutive_failures_spec "base" 1 (fun n => n == 3) none 10 1 0 0).2.1
      rfl rfl rfl rfl rfl (by omega)
  · exact (consecutive_failures_spec "base" 1 (fun _ => true) none 10 1 0 0).2.2.1
      rfl rfl
  · exact (consecutive_failures_spec "base" 1 (fun _ => false) none 10 1 0 0).2.2.2
      rfl (by omega) rfl

/-- Witness for C2 at bodies of 99 and 100 characters. -/
theorem insufficient_content_spec_witness :
    ((String.mk (List.replicate 99 'a')).length < 100 ∧
      download_chapter true (String.mk (List.replicate 99 'a')) none 1
        (chapter_url "b" 1 1) = ⟨false, true, none⟩) ∧
    (100 ≤ (String.mk (List.replicate 100 'a')).length ∧
      download_chapter true (String.mk (List.replicate 100 'a')) none 2
        (chapter_url "b" 1 2) =
        ⟨true, false, some (chapter_filename 2,
          format_chapter (title_or_default none 2) (String.mk (List.replicate 100 'a')) 2
            (chapter_url "b" 1 2))⟩) ∧
    downloadLoopAux "b" 1
        (chapter_outcome (fun _ => true) (fun _ => String.mk (List.replicate 99 'a'))
          (fun _ => none) "b" 1) none (0 + 1) 1 0 =
      ⟨[(1, chapter_url "b" 1 1)], [], 2, 1⟩ ∧
    downloadLoopAux "b" 1
        (chapter_outcome (fun _ => true) (fun _ => String.mk (List.replicate 100 'a'))
          (fun _ => none) "b" 1) none (0 + 1) 1 0 =
      ⟨[(1, chapter_url "b" 1 1)], [1], 2, 0⟩ := by
  refine ⟨⟨by decide, ?_⟩, ⟨by decide, ?_⟩, ?_, ?_⟩
  · exact (insufficient_content_spec (fun _ => true)
      (fun _ => String.mk (List.replicate 99 'a')) (fun _ => none) "b" 1 none 0 1 0).1
      (by decide) rfl
  · exact (insufficient_content_spec (fun _ => true)
      (fun _ => String.mk (List.replicate 100 'a')) (fun _ => none) "b" 1 none 0 2 0).2.1
      (by decide) rfl
  · exact (insufficient_content_spec (fun _ => true)
      (fun _ => String.mk (List.replicate 99 'a')) (fun _ => none) "b" 1 none 0 1 0).2.2.1
      (by decide) rfl (by omega) rfl
  · exact (insufficient_content_spec (fun _ => true)
      (fun _ => String.mk (List.replicate 100 'a')) (fun _ => none) "b" 1 none 0 1 0).2.2.2
      (by decide) rfl rfl

/-- Witness for C3: the second selector is the first to yield filtered
text, the third is never evaluated, and an all-empty list falls back. -/
theorem selector_short_circuit_witness :
    (∀ s2 ∈ ["main.ls_b .node-doc"],
      selector_parts (fun s => if s = "main.ls_b .node-doc" then [⟨[], "short"⟩]
        else if s = ".reader-container .text" then
          [⟨["This paragraph is definitely longer than twenty characters."], ""⟩]
        else []) s2 = []) ∧
    selector_parts (fun s => if s = "main.ls_b .node-doc" then [⟨[], "short"⟩]
        else if s = ".reader-container .text" then
          [⟨["This paragraph is definitely longer than twenty characters."], ""⟩]
        else []) ".reader-container .text" ≠ [] ∧
    extract_chapter_text (fun s => if s = "main.ls_b .node-doc" then [⟨[], "short"⟩]
        else if s = ".reader-container .text" then
          [⟨["This paragraph is definitely longer than twenty characters."], ""⟩]
        else []) ["page text"]
        (["main.ls_b .node-doc"] ++ ".reader-container .text" :: [".chapter-content"]) =
      ⟨String.intercalate "\n\n"
          (selector_parts (fun s => if s = "main.ls_b .node-doc" then [⟨[], "short"⟩]
            else if s = ".reader-container .text" then
              [⟨["This paragraph is definitely longer than twenty characters."], ""⟩]
            else []) ".reader-container .text"),
        ["main.ls_b .node-doc"] ++ [".reader-container .text"], false⟩ ∧
    extract_chapter_text (fun s => if s = "main.ls_b .node-doc" then [⟨[], "short"⟩]
        else if s = ".reader-container .text" then
          [⟨["This paragraph is definitely longer than twenty characters."], ""⟩]
        else []) ["page text"] [".chapter-content"] =
      ⟨extract_largest_text_block ["page text"], [".chapter-content"], true⟩ := by
  refine ⟨by decide, by decide, ?_, ?_⟩
  · exact (selector_short_circuit _ ["page text"] ["main.ls_b .node-doc"]
      [".chapter-content"] ".reader-container .text").1 (by decide) (by decide)
  · exact (selector_short_circuit _ ["page text"] ["main.ls_b .node-doc"]
      [".chapter-content"] ".reader-container .text").2.2 [".chapter-content"] (by decide)

/-- Witness for C7 (amended): a missing match and a falsy match are
skipped, the first truthy match supplies the title, and the synthetic
title substitutes for a missing or empty one. -/
theorem title_first_truthy_match_witness :
    (∀ s2 ∈ ["h1.ls_cq", ".reader-header h1"],
      matched_truthy ((fun q => if q = "h1.ls_cq" then none
        else if q = ".reader-header h1" then some ⟨false, "nav"⟩
        else some (⟨true, "Chapter 12: Storm"⟩ : TitleElem)) s2) = false) ∧
    extract_chapter_title (fun q => if q = "h1.ls_cq" then none
        else if q = ".reader-header h1" then some ⟨false, "nav"⟩
        else some ⟨true, "Chapter 12: Storm"⟩)
      (["h1.ls_cq", ".reader-header h1"] ++ "h1.reader-header-title" :: [".chapter-title"]) =
      some (TitleElem.mk true "Chapter 12: Storm").text ∧
    extract_chapter_title (fun q => if q = "h1.ls_cq" then none
        else if q = ".reader-header h1" then some ⟨false, "nav"⟩
        else some ⟨true, "Chapter 12: Storm"⟩) ["h1.ls_cq", ".reader-header h1"] = none ∧
    title_or_default none 5 = "Chapter " ++ Nat.repr 5 ∧
    title_or_default (some "") 5 = "Chapter " ++ Nat.repr 5 := by
  refine ⟨by decide, ?_, ?_, ?_, ?_⟩
  · exact (title_first_truthy_match _ ["h1.ls_cq", ".reader-header h1"] [".chapter-title"]
      "h1.reader-header-title" ⟨true, "Chapter 12: Storm"⟩ 5).1 (by decide) (by decide) rfl
  · exact (title_first_truthy_match _ [] [] "x" ⟨true, "y"⟩ 5).2.1
      ["h1.ls_cq", ".reader-header h1"] (by decide)
  · exact (title_first_truthy_match (fun _ => none) [] [] "x" ⟨true, "y"⟩ 5).2.2.1
  · exact (title_first_truthy_match (fun _ => none) [] [] "x" ⟨true, "y"⟩ 5).2.2.2

end NovelScrapper
